import Mathlib

/-!
Shallow embedding of the MemWatch dashboard server (the ingestion and
coordination engine of the repository).  The handlers of the
`MemWatchDashboard` class are translated into pure functions over an
explicit `DashState`; JavaScript `Map`s become association lists with
JS-`Map` semantics (insertion order kept, in-place update on existing
keys), broadcasts become explicit event lists, file writes become
explicit `(path, contents)` pairs, and the environment calls
`Date.now()` / `Math.random()` and the external analyzer become
explicit parameters.
-/

namespace MemWatch

/-- Connection status of a service (`'connected' | 'disconnected'`). -/
inductive ConnStatus where
  | connected
  | disconnected
  deriving DecidableEq, Repr

/-- Snapshot phase (`'before' | 'after'`). -/
inductive Phase where
  | before
  | after
  deriving DecidableEq, Repr

/-- Alert kind (`'leak' | 'snapshot'`). -/
inductive AlertType where
  | leak
  | snapshot
  deriving DecidableEq, Repr

/-- Alert severity (`'critical' | 'warning' | 'info'`). -/
inductive Severity where
  | critical
  | warning
  | info
  deriving DecidableEq, Repr

/-- Comparison session status (`'waiting' | 'analyzing' | 'completed' | 'failed'`). -/
inductive SessionStatus where
  | waiting
  | analyzing
  | completed
  | failed
  deriving DecidableEq, Repr

/-- `ServiceInfo` record of the source, with the WebSocket connection
modelled as a numeric connection identifier. -/
structure ServiceInfo where
  name : String
  status : ConnStatus
  connection : Nat
  registeredAt : Nat
  lastSeen : Nat
  totalAlerts : Nat
  deriving DecidableEq, Repr

/-- `MetricData` record of the source (the `type` discriminator is
implicit in the Lean type). -/
structure MetricData where
  service : String
  heapUsedMB : ℚ
  heapTotalMB : ℚ
  rssMB : ℚ
  externalMB : ℚ
  eventLoopDelayMs : ℚ
  timestamp : Nat
  leakDetected : Bool
  memoryGrowthMB : ℚ
  deriving DecidableEq, Repr

/-- `Alert` record of the source.  `id` is rational because the source
uses `Date.now() + Math.random()` for two of the three alert kinds. -/
structure Alert where
  id : ℚ
  service : String
  type : AlertType
  message : String
  timestamp : Nat
  severity : Severity
  heapUsedMB : Option ℚ := none
  memoryGrowthMB : Option ℚ := none
  filename : Option String := none
  filepath : Option String := none
  deriving DecidableEq, Repr

/-- `SnapshotData` record of the source.  The chunk table is a list of
optional strings: a JS array grown by index assignment has holes, which
are `none` here. -/
structure SnapshotData where
  id : String
  serviceName : String
  containerId : String
  phase : Phase
  timestamp : String
  size : Nat
  filename : String
  data : Option String := none
  chunks : Option (List (Option String)) := none
  totalChunks : Option Nat := none
  receivedChunks : Option Nat := none
  deriving DecidableEq, Repr

/-- Analyzer summary; the core depends only on these fields of the
analysis result. -/
structure AnalysisSummary where
  totalLeaksMB : ℚ
  totalGrowthMB : ℚ
  suspiciousGrowth : Bool
  deriving DecidableEq, Repr

/-- Result of the external analyzer, reduced to the fields the core
reads. -/
structure AnalysisResult where
  summary : AnalysisSummary
  deriving DecidableEq, Repr

/-- `ComparisonSession` record of the source. -/
structure ComparisonSession where
  id : String
  serviceName : String
  containerId : String
  beforeSnapshotId : String
  afterSnapshotId : String
  timeframe : Nat
  status : SessionStatus
  result : Option AnalysisResult := none
  createdAt : Nat
  deriving DecidableEq, Repr

/-- Events broadcast to dashboard subscribers, one constructor per
`broadcastToClients` message type that the claims observe. -/
inductive Event where
  | serviceRegistered (service : String) (timestamp : Nat)
  | serviceUpdate (service : String) (status : ConnStatus)
  | metricsUpdate (m : MetricData)
  | snapshotAlert (a : Alert)
  | leakAlert (a : Alert)
  | captureAgentRegistered (serviceName containerId : String) (timestamp : Nat)
  | snapshotStarted (id serviceName : String) (phase : Phase) (timestamp : String) (size : Nat)
  | snapshotProgress (snapshotId : String) (progress : ℤ) (receivedChunks totalChunks : Nat)
  | snapshotCompleted (id serviceName : String) (phase : Phase) (timestamp : String)
      (size : Nat) (filepath : String)
  | comparisonStarted (sessionId serviceName beforeSnapshotId afterSnapshotId : String)
  | comparisonCompleted (sessionId serviceName : String) (analysis : AnalysisResult)
  | comparisonFailed (sessionId serviceName : String) (error : String)
  | comparisonPending (sessionId serviceName : String) (missingBefore missingAfter : Bool)
  deriving DecidableEq, Repr

/-- The in-memory state of the `MemWatchDashboard` instance. -/
structure DashState where
  services : List (String × ServiceInfo) := []
  metrics : List (String × List MetricData) := []
  alerts : List Alert := []
  snapshots : List (String × SnapshotData) := []
  comparisonSessions : List (String × ComparisonSession) := []
  alertCounter : Nat := 1
  deriving DecidableEq, Repr

/-- Lookup in a JS `Map` modelled as an association list (keys are
unique in every map built by `mapSet`). -/
def mapGet {α : Type} : List (String × α) → String → Option α
  | [], _ => none
  | p :: rest, k => if p.1 = k then some p.2 else mapGet rest k

/-- `Map.set`: update in place if the key is present, else append
(JS `Map` keeps insertion order). -/
def mapSet {α : Type} : List (String × α) → String → α → List (String × α)
  | [], k, v => [(k, v)]
  | p :: rest, k, v => if p.1 = k then (k, v) :: rest else p :: mapSet rest k v

theorem mapGet_mapSet_self {α : Type} (m : List (String × α)) (k : String) (v : α) :
    mapGet (mapSet m k v) k = some v := by
  induction m with
  | nil => simp [mapGet, mapSet]
  | cons p rest ih =>
    by_cases hp : p.1 = k
    · simp [mapGet, mapSet, hp]
    · simp [mapGet, mapSet, hp, ih]

theorem mapGet_mapSet_ne {α : Type} (m : List (String × α)) (k k' : String) (v : α)
    (h : k' ≠ k) : mapGet (mapSet m k v) k' = mapGet m k' := by
  induction m with
  | nil => simp [mapGet, mapSet, Ne.symm h]
  | cons p rest ih =>
    by_cases hp : p.1 = k
    · simp [mapGet, mapSet, hp, Ne.symm h, h]
    · by_cases hpk' : p.1 = k'
      · simp [mapGet, mapSet, hp, hpk', h]
      · simp [mapGet, mapSet, hp, hpk', ih]

/-- JS array index assignment `a[chunkIndex] = data`: grows the array
with holes (`none`) up to the index if needed, then writes. -/
def setChunk : List (Option String) → Nat → String → List (Option String)
  | [], 0, d => [some d]
  | [], i + 1, d => none :: setChunk [] i d
  | _ :: xs, 0, d => some d :: xs
  | x :: xs, i + 1, d => x :: setChunk xs i d

/-- `chunks.join('')`: holes join as the empty string. -/
def joinChunks (l : List (Option String)) : String :=
  String.join (l.map (fun o => o.getD ""))

theorem setChunk_comm (l : List (Option String)) (i j : Nat) (a b : String) :
    i ≠ j → setChunk (setChunk l i a) j b = setChunk (setChunk l j b) i a := by
  induction i generalizing l j with
  | zero =>
    intro hij
    cases j with
    | zero => exact absurd rfl hij
    | succ n => cases l <;> simp [setChunk]
  | succ m ih =>
    intro hij
    cases j with
    | zero => cases l <;> simp [setChunk]
    | succ n => cases l <;> simp [setChunk, ih _ n (by omega)]

theorem setChunk_at_length (l : List (Option String)) (d : String) :
    setChunk l l.length d = l ++ [some d] := by
  induction l with
  | nil => simp [setChunk]
  | cons x xs ih => simp [setChunk, ih]

/-- Rendering of a JS number in a template string.  The Lean `toString`
on rationals stands in for JavaScript number formatting; no claim
depends on the rendered text. -/
def numStr (q : ℚ) : String :=
  toString q

/-- JS `Number.toFixed(2)`: two fractional digits, half-up rounding of
the rational standing in for the binary double. -/
def toFixed2 (q : ℚ) : String :=
  let n : ℤ := round (q * 100)
  let sign := if n < 0 then "-" else ""
  let m := n.natAbs
  let frac := m % 100
  sign ++ toString (m / 100) ++ "." ++ (if frac < 10 then "0" else "") ++ toString frac

/-- `trimAlerts` of the source: keep only the last 100 alerts
(`slice(-100)`). -/
def trimAlerts (alerts : List Alert) : List Alert :=
  if alerts.length > 100 then alerts.drop (alerts.length - 100) else alerts

/-- The metric-ring update of `handleMetrics`: `push` then `shift` once
when the length exceeds 1000. -/
def pushMetric (ring : List MetricData) (m : MetricData) : List MetricData :=
  let r := ring ++ [m]
  if r.length > 1000 then r.drop 1 else r

/-- JS truthiness of `snapshot?.data`: `undefined` snapshot, `undefined`
data and the empty string are all falsy. -/
def truthyData (snap : Option SnapshotData) : Bool :=
  match snap with
  | none => false
  | some s =>
    match s.data with
    | none => false
    | some d => d ≠ ""

/-- `handleServiceRegistration`: supersede the service record in place,
initialize the metric ring only if absent, emit `serviceRegistered`. -/
def handleServiceRegistration (ws : Nat) (service : String) (timestamp : Nat)
    (s : DashState) : DashState × List Event :=
  let info : ServiceInfo :=
    { name := service, status := .connected, connection := ws,
      registeredAt := timestamp, lastSeen := timestamp, totalAlerts := 0 }
  let s := { s with services := mapSet s.services service info }
  let s :=
    if (mapGet s.metrics service).isSome then s
    else { s with metrics := mapSet s.metrics service [] }
  (s, [Event.serviceRegistered service timestamp])

/-- `handleCaptureAgentRegistration`: register a pseudo-service named
`capture-<serviceName>`. -/
def handleCaptureAgentRegistration (ws : Nat) (serviceName containerId : String)
    (timestamp : Nat) (s : DashState) : DashState × List Event :=
  let info : ServiceInfo :=
    { name := "capture-" ++ serviceName, status := .connected, connection := ws,
      registeredAt := timestamp, lastSeen := timestamp, totalAlerts := 0 }
  ({ s with services := mapSet s.services ("capture-" ++ serviceName) info },
   [Event.captureAgentRegistered serviceName containerId timestamp])

/-- `handleLeakAlert`: bump the service alert counter, record a critical
leak alert with id `Date.now() + Math.random()`, trim, broadcast. -/
def handleLeakAlert (now : Nat) (rand : ℚ) (m : MetricData) (s : DashState) :
    DashState × List Event :=
  let s :=
    match mapGet s.services m.service with
    | some info =>
        let inf : ServiceInfo := { info with totalAlerts := info.totalAlerts + 1 }
        { s with services := mapSet s.services m.service inf }
    | none => s
  let alert : Alert :=
    { id := (now : ℚ) + rand, service := m.service, type := .leak,
      message := "Memory leak detected - Heap: " ++ numStr m.heapUsedMB ++
        "MB (Growth: +" ++ numStr m.memoryGrowthMB ++ "MB)",
      heapUsedMB := some m.heapUsedMB, memoryGrowthMB := some m.memoryGrowthMB,
      timestamp := m.timestamp, severity := .critical }
  let s := { s with alerts := trimAlerts (s.alerts ++ [alert]) }
  (s, [Event.leakAlert alert])

/-- `handleMetrics`: refresh the service record, append to the bounded
metric ring, raise a leak alert when flagged, broadcast the update. -/
def handleMetrics (now : Nat) (rand : ℚ) (m : MetricData) (s : DashState) :
    DashState × List Event :=
  let s :=
    match mapGet s.services m.service with
    | some info =>
        let inf : ServiceInfo := { info with lastSeen := m.timestamp, status := .connected }
        { s with services := mapSet s.services m.service inf }
    | none => s
  let ring := (mapGet s.metrics m.service).getD []
  let s := { s with metrics := mapSet s.metrics m.service (pushMetric ring m) }
  let (s, leakEvents) :=
    if m.leakDetected then handleLeakAlert now rand m s else (s, [])
  (s, leakEvents ++ [Event.metricsUpdate m])

/-- `handleSnapshot`: record an info alert for the legacy snapshot
notification and broadcast it. -/
def handleSnapshot (now : Nat) (rand : ℚ) (service filename filepath : String)
    (timestamp : Nat) (s : DashState) : DashState × List Event :=
  let alert : Alert :=
    { id := (now : ℚ) + rand, service := service, type := .snapshot,
      message := "Heap snapshot generated: " ++ filename,
      filename := some filename, filepath := some filepath,
      timestamp := timestamp, severity := .info }
  ({ s with alerts := trimAlerts (s.alerts ++ [alert]) },
   [Event.snapshotAlert alert])

/-- `handleSnapshotMetadata`: store the snapshot with an empty chunk
array and a zero received count, broadcast `snapshotStarted`. -/
def handleSnapshotMetadata (snap : SnapshotData) (s : DashState) :
    DashState × List Event :=
  let stored : SnapshotData := { snap with chunks := some [], receivedChunks := some 0 }
  ({ s with snapshots := mapSet s.snapshots snap.id stored },
   [Event.snapshotStarted snap.id snap.serviceName snap.phase snap.timestamp snap.size])

/-- Snapshot-level effect of `handleSnapshotChunk`: allocate the chunk
table when absent (`new Array(totalChunks)`), store the chunk at its
index, increment `receivedChunks` unconditionally. -/
def applyChunk (snap : SnapshotData) (chunkIndex totalChunks : Nat) (d : String) :
    SnapshotData :=
  let snap1 :=
    match snap.chunks with
    | none =>
        { snap with chunks := some (List.replicate totalChunks none),
                    totalChunks := some totalChunks, receivedChunks := some 0 }
    | some _ => snap
  { snap1 with chunks := some (setChunk (snap1.chunks.getD []) chunkIndex d),
               receivedChunks := some (snap1.receivedChunks.getD 0 + 1) }

/-- `handleSnapshotChunk`: drop chunks for unknown snapshot ids,
otherwise apply the chunk and broadcast progress computed from the
message total. -/
def handleSnapshotChunk (snapshotId : String) (chunkIndex totalChunks : Nat)
    (d : String) (s : DashState) : DashState × List Event :=
  match mapGet s.snapshots snapshotId with
  | none => (s, [])
  | some snap =>
    let snap' := applyChunk snap chunkIndex totalChunks d
    let received := snap'.receivedChunks.getD 0
    let progress : ℚ := (received : ℚ) / (totalChunks : ℚ) * 100
    ({ s with snapshots := mapSet s.snapshots snapshotId snap' },
     [Event.snapshotProgress snapshotId (round progress) received totalChunks])

/-- Directory the source persists completed snapshots into. -/
def snapshotsDir : String := "./dashboard-snapshots"

/-- `handleSnapshotComplete`: for a known snapshot with a chunk table,
join the chunks in index order, persist under the snapshot filename and
broadcast `snapshotCompleted`; the received count is not consulted. -/
def handleSnapshotComplete (snapshotId : String) (s : DashState) :
    DashState × List Event × List (String × String) :=
  match mapGet s.snapshots snapshotId with
  | none => (s, [], [])
  | some snap =>
    match snap.chunks with
    | none => (s, [], [])
    | some table =>
      let data := joinChunks table
      let snap' := { snap with data := some data }
      let filepath := snapshotsDir ++ "/" ++ snap.filename
      ({ s with snapshots := mapSet s.snapshots snapshotId snap' },
       [Event.snapshotCompleted snap.id snap.serviceName snap.phase snap.timestamp
          snap.size filepath],
       [(filepath, data)])

/-- Alert synthesized by `handleComparisonReady` when the analysis
reports suspicious growth; its id comes from `alertCounter++`. -/
def mkComparisonAlert (counter : Nat) (serviceName : String) (now : Nat)
    (analysis : AnalysisResult) : Alert :=
  { id := (counter : ℚ), service := serviceName, type := .leak,
    message := "Memory leak detected: " ++ toFixed2 analysis.summary.totalGrowthMB ++
      "MB growth",
    timestamp := now,
    severity := if analysis.summary.totalGrowthMB > 50 then .critical else .warning }

/-- Result of one `handleComparisonReady` invocation.  `statusTrace`
records every value assigned to the session status in program order, and
`analyzed` records whether the analyzer interface was invoked. -/
structure CompareOutcome where
  state : DashState
  events : List Event
  analyzed : Bool
  statusTrace : List SessionStatus
  deriving DecidableEq, Repr

/-- `handleComparisonReady`: create a fresh session in `waiting`; when
both referenced snapshots have truthy data, move it through `analyzing`
to `completed` (recording the result and possibly a counter alert) or to
`failed`; otherwise broadcast a single `comparisonPending` with the
missing flags.  The analyzer outcome is a parameter because the analyzer
is an external collaborator. -/
def handleComparisonReady (now : Nat) (serviceName containerId : String)
    (beforeSnapshotId afterSnapshotId : String) (timeframe : Nat)
    (outcome : Except String AnalysisResult) (s : DashState) : CompareOutcome :=
  let sessionId := "comparison_" ++ serviceName ++ "_" ++ toString now
  let session : ComparisonSession :=
    { id := sessionId, serviceName := serviceName, containerId := containerId,
      beforeSnapshotId := beforeSnapshotId, afterSnapshotId := afterSnapshotId,
      timeframe := timeframe, status := .waiting, createdAt := now }
  let s1 := { s with comparisonSessions := mapSet s.comparisonSessions sessionId session }
  let beforeSnapshot := mapGet s1.snapshots beforeSnapshotId
  let afterSnapshot := mapGet s1.snapshots afterSnapshotId
  if truthyData beforeSnapshot && truthyData afterSnapshot then
    match outcome with
    | .ok analysis =>
      let session2 := { session with status := .completed, result := some analysis }
      let s2 := { s1 with
        comparisonSessions := mapSet s1.comparisonSessions sessionId session2 }
      let s3 :=
        if analysis.summary.suspiciousGrowth then
          { s2 with
            alerts := s2.alerts ++ [mkComparisonAlert s2.alertCounter serviceName now analysis],
            alertCounter := s2.alertCounter + 1 }
        else s2
      { state := s3,
        events := [Event.comparisonStarted sessionId serviceName beforeSnapshotId afterSnapshotId,
                   Event.comparisonCompleted sessionId serviceName analysis],
        analyzed := true,
        statusTrace := [.waiting, .analyzing, .completed] }
    | .error e =>
      let session2 := { session with status := .failed }
      let s2 := { s1 with
        comparisonSessions := mapSet s1.comparisonSessions sessionId session2 }
      { state := s2,
        events := [Event.comparisonStarted sessionId serviceName beforeSnapshotId afterSnapshotId,
                   Event.comparisonFailed sessionId serviceName e],
        analyzed := true,
        statusTrace := [.waiting, .analyzing, .failed] }
  else
    { state := s1,
      events := [Event.comparisonPending sessionId serviceName
        (!truthyData beforeSnapshot) (!truthyData afterSnapshot)],
      analyzed := false,
      statusTrace := [.waiting] }

/-- Scan of the `ws.on('close')` handler over `services.entries()`:
mark the first service referencing the closed connection disconnected,
broadcast a `serviceUpdate` for it, and stop (`break`). -/
def closeScan (now ws : Nat) :
    List (String × ServiceInfo) → List (String × ServiceInfo) × List Event
  | [] => ([], [])
  | (name, svc) :: rest =>
    if svc.connection = ws then
      ((name, { svc with status := .disconnected, lastSeen := now }) :: rest,
       [Event.serviceUpdate name .disconnected])
    else
      let (rest', evs) := closeScan now ws rest
      ((name, svc) :: rest', evs)

/-- The connection-close reconciliation of `setupWebSocket`. -/
def handleClose (now ws : Nat) (s : DashState) : DashState × List Event :=
  let (services', evs) := closeScan now ws s.services
  ({ s with services := services' }, evs)

/-! Helper lemmas shared by the claim theorems. -/

theorem handleLeakAlert_metrics (now : Nat) (rand : ℚ) (m : MetricData) (s : DashState) :
    ((handleLeakAlert now rand m s).1).metrics = s.metrics := by
  unfold handleLeakAlert
  cases mapGet s.services m.service <;> rfl

theorem handleLeakAlert_comparisonSessions (now : Nat) (rand : ℚ) (m : MetricData)
    (s : DashState) :
    ((handleLeakAlert now rand m s).1).comparisonSessions = s.comparisonSessions := by
  unfold handleLeakAlert
  cases mapGet s.services m.service <;> rfl

theorem handleLeakAlert_alertCounter (now : Nat) (rand : ℚ) (m : MetricData)
    (s : DashState) :
    ((handleLeakAlert now rand m s).1).alertCounter = s.alertCounter := by
  unfold handleLeakAlert
  cases mapGet s.services m.service <;> rfl

theorem foldl_pushMetric (ms : List MetricData) :
    ms.foldl pushMetric [] = ms.drop (ms.length - 1000) := by
  induction ms using List.reverseRecOn with
  | nil => simp
  | append_singleton ms m ih =>
    rw [List.foldl_append, List.foldl_cons, List.foldl_nil, ih]
    by_cases h : ms.length < 1000
    · have h1 : ms.length - 1000 = 0 := by omega
      have h2 : ms.length + 1 - 1000 = 0 := by omega
      simp only [pushMetric, h1, List.drop_zero, List.length_append,
        List.length_cons, List.length_nil, h2]
      rw [if_neg (by simp; omega)]
    · have hds : (ms.drop (ms.length - 1000)).length = 1000 := by
        rw [List.length_drop]; omega
      have hpush : pushMetric (ms.drop (ms.length - 1000)) m =
          (ms.drop (ms.length - 1000) ++ [m]).drop 1 := by
        unfold pushMetric
        rw [if_pos (by simp [hds])]
      rw [hpush, List.drop_append_of_le_length (by omega), List.drop_drop,
        List.length_append, List.length_cons, List.length_nil,
        List.drop_append_of_le_length (by omega)]
      have harith : ms.length - 1000 + 1 = ms.length + (0 + 1) - 1000 := by omega
      rw [harith]

/-- C7: for every service the metric ring is exactly the suffix of the
arrival sequence of length at most 1000 — so it never exceeds 1000
samples, samples appear in arrival order, and the 1001st sample evicts
exactly the oldest — and `handleMetrics` updates the per-service ring by
`pushMetric` (append, then drop the oldest when over 1000). -/
theorem metric_ring_bounded_suffix :
    (∀ ms : List MetricData, ms.foldl pushMetric [] = ms.drop (ms.length - 1000)) ∧
    (∀ (now : Nat) (rand : ℚ) (m : MetricData) (s : DashState),
      ((handleMetrics now rand m s).1).metrics =
        mapSet s.metrics m.service
          (pushMetric ((mapGet s.metrics m.service).getD []) m)) := by
  refine ⟨foldl_pushMetric, ?_⟩
  intro now rand m s
  unfold handleMetrics
  cases mapGet s.services m.service <;>
    by_cases hl : m.leakDetected <;>
      simp [hl, handleLeakAlert_metrics]

/-- C10: a registration message for an already-registered service
replaces the stored record wholesale — `totalAlerts` reset to 0,
`registeredAt` reset to the message timestamp — while the whole metrics
map (hence the existing ring) and the global alert ring are unchanged. -/
theorem reregistration_replaces_record_frames
    (ws : Nat) (service : String) (ts : Nat) (s : DashState) (ring : List MetricData)
    (hreg : (mapGet s.services service).isSome = true)
    (hring : mapGet s.metrics service = some ring) :
    mapGet (handleServiceRegistration ws service ts s).1.services service = some
      { name := service, status := .connected, connection := ws,
        registeredAt := ts, lastSeen := ts, totalAlerts := 0 } ∧
    (handleServiceRegistration ws service ts s).1.metrics = s.metrics ∧
    (handleServiceRegistration ws service ts s).1.alerts = s.alerts ∧
    (handleServiceRegistration ws service ts s).2 = [Event.serviceRegistered service ts] := by
  unfold handleServiceRegistration
  simp [mapGet_mapSet_self, hring]

/-- Witness for C10 at a concrete re-registration. -/
def w10svc : ServiceInfo :=
  { name := "svc", status := .connected, connection := 3, registeredAt := 10,
    lastSeen := 11, totalAlerts := 7 }

def w10state : DashState :=
  { services := [("svc", w10svc)],
    metrics := [("svc", [])] }

theorem reregistration_replaces_record_frames_witness :
    ((mapGet w10state.services "svc").isSome = true ∧
     mapGet w10state.metrics "svc" = some []) ∧
    (mapGet (handleServiceRegistration 4 "svc" 20 w10state).1.services "svc" = some
      { name := "svc", status := .connected, connection := 4,
        registeredAt := 20, lastSeen := 20, totalAlerts := 0 } ∧
    (handleServiceRegistration 4 "svc" 20 w10state).1.metrics = w10state.metrics ∧
    (handleServiceRegistration 4 "svc" 20 w10state).1.alerts = w10state.alerts ∧
    (handleServiceRegistration 4 "svc" 20 w10state).2 = [Event.serviceRegistered "svc" 20]) :=
  ⟨⟨by decide, by decide⟩,
   reregistration_replaces_record_frames 4 "svc" 20 w10state [] (by decide) (by decide)⟩

/-! Concrete fixtures for counterexamples and witnesses. -/

def padAlert : Alert :=
  { id := 0, service := "s", type := .snapshot, message := "m", timestamp := 0,
    severity := .info }

def doneBefore : SnapshotData :=
  { id := "b", serviceName := "svc", containerId := "c", phase := .before,
    timestamp := "t", size := 3, filename := "b.heapsnapshot", data := some "x" }

def doneAfter : SnapshotData :=
  { id := "a", serviceName := "svc", containerId := "c", phase := .after,
    timestamp := "t", size := 3, filename := "a.heapsnapshot", data := some "y" }

def fullRingState : DashState :=
  { alerts := List.replicate 100 padAlert,
    snapshots := [("b", doneBefore), ("a", doneAfter)] }

/-- C6 fails on the code: with the global alert ring already holding 100
alerts and both snapshots complete, a comparison analysis that reports
suspicious growth pushes a 101st alert and `trimAlerts` is never
applied, so the operation leaves the ring at length 101. -/
theorem alertRing_overflow_on_comparison :
    ((handleComparisonReady 5 "svc" "c" "b" "a" 60
        (.ok ⟨⟨60, 60, true⟩⟩) fullRingState).state.alerts.length = 101) := by
  simp [handleComparisonReady, fullRingState, doneBefore, doneAfter, truthyData,
    mapGet, mkComparisonAlert]

/-- Services sharing one producer connection, as created by one socket
sending a `registration` and a `capture-agent-registration`. -/
def sharedConnState : DashState :=
  { services :=
      [("a", { name := "a", status := .connected, connection := 0,
               registeredAt := 0, lastSeen := 0, totalAlerts := 0 }),
       ("b", { name := "b", status := .connected, connection := 0,
               registeredAt := 0, lastSeen := 0, totalAlerts := 0 })] }

/-- C8 fails on the code: both services reference the closed connection
0, yet after the close handler the second one is still `connected` (the
scan stops at the first match). -/
theorem close_only_first_match_counterexample :
    (mapGet sharedConnState.services "b").map ServiceInfo.connection = some 0 ∧
    (mapGet (handleClose 5 0 sharedConnState).1.services "b").map ServiceInfo.status =
      some .connected ∧
    (handleClose 5 0 sharedConnState).2 = [Event.serviceUpdate "a" .disconnected] := by
  decide

/-- C8 (amended): on close, only the first service in insertion order
whose producer reference is the closed connection transitions to
disconnected, with exactly one serviceUpdate; every entry after it —
matching or not — is unchanged, and when no service matches, nothing
changes and nothing is published. -/
theorem close_disconnects_first_match :
    (∀ (now ws : Nat) (pre : List (String × ServiceInfo)) (name : String)
        (svc : ServiceInfo) (post : List (String × ServiceInfo)),
      (∀ p ∈ pre, p.2.connection ≠ ws) → svc.connection = ws →
      closeScan now ws (pre ++ (name, svc) :: post) =
        (pre ++ (name, { svc with status := .disconnected, lastSeen := now }) :: post,
         [Event.serviceUpdate name .disconnected])) ∧
    (∀ (now ws : Nat) (l : List (String × ServiceInfo)),
      (∀ p ∈ l, p.2.connection ≠ ws) → closeScan now ws l = (l, [])) ∧
    (∀ (now ws : Nat) (s : DashState),
      (handleClose now ws s).1.services = (closeScan now ws s.services).1 ∧
      (handleClose now ws s).2 = (closeScan now ws s.services).2) := by
  refine ⟨?_, ?_, ?_⟩
  · intro now ws pre name svc post hpre hsvc
    induction pre with
    | nil => simp [closeScan, hsvc]
    | cons p rest ih =>
      have hp : p.2.connection ≠ ws := hpre p (by simp)
      have hrest : ∀ q ∈ rest, q.2.connection ≠ ws := fun q hq => hpre q (by simp [hq])
      simp [closeScan, hp, ih hrest]
  · intro now ws l hl
    induction l with
    | nil => rfl
    | cons p rest ih =>
      have hp : p.2.connection ≠ ws := hl p (by simp)
      have hrest : ∀ q ∈ rest, q.2.connection ≠ ws := fun q hq => hl q (by simp [hq])
      simp [closeScan, hp, ih hrest]
  · intro now ws s
    unfold handleClose
    exact ⟨rfl, rfl⟩

/-- Witness for the amended C8 on a concrete three-service state. -/
def w8pre : List (String × ServiceInfo) :=
  [("x", { name := "x", status := .connected, connection := 1,
           registeredAt := 0, lastSeen := 0, totalAlerts := 0 })]

def w8svc : ServiceInfo :=
  { name := "y", status := .connected, connection := 0,
    registeredAt := 0, lastSeen := 0, totalAlerts := 0 }

def w8post : List (String × ServiceInfo) :=
  [("z", { name := "z", status := .connected, connection := 0,
           registeredAt := 0, lastSeen := 0, totalAlerts := 0 })]

theorem close_disconnects_first_match_witness :
    ((∀ p ∈ w8pre, p.2.connection ≠ 0) ∧ w8svc.connection = 0) ∧
    closeScan 9 0 (w8pre ++ ("y", w8svc) :: w8post) =
      (w8pre ++ ("y", { w8svc with status := .disconnected, lastSeen := 9 }) :: w8post,
       [Event.serviceUpdate "y" .disconnected]) :=
  ⟨⟨by decide, by decide⟩,
   close_disconnects_first_match.1 9 0 w8pre "y" w8svc w8post (by decide) (by decide)⟩

/-- C4: the sequence of status values assigned to the session created by
a comparison-ready message is one of the paths waiting,
waiting→analyzing→completed, waiting→analyzing→failed — so analyzing is
entered at most once, no state is re-entered and nothing follows a
terminal state — and no other handler ever mutates the session map. -/
theorem comparison_session_status_path :
    (∀ (now : Nat) (serviceName containerId beforeId afterId : String)
        (timeframe : Nat) (outcome : Except String AnalysisResult) (s : DashState),
      (handleComparisonReady now serviceName containerId beforeId afterId timeframe
          outcome s).statusTrace = [.waiting] ∨
      (handleComparisonReady now serviceName containerId beforeId afterId timeframe
          outcome s).statusTrace = [.waiting, .analyzing, .completed] ∨
      (handleComparisonReady now serviceName containerId beforeId afterId timeframe
          outcome s).statusTrace = [.waiting, .analyzing, .failed]) ∧
    (∀ (ws : Nat) (service : String) (ts : Nat) (s : DashState),
      ((handleServiceRegistration ws service ts s).1).comparisonSessions =
        s.comparisonSessions) ∧
    (∀ (ws : Nat) (sn cid : String) (ts : Nat) (s : DashState),
      ((handleCaptureAgentRegistration ws sn cid ts s).1).comparisonSessions =
        s.comparisonSessions) ∧
    (∀ (now : Nat) (rand : ℚ) (m : MetricData) (s : DashState),
      ((handleMetrics now rand m s).1).comparisonSessions = s.comparisonSessions) ∧
    (∀ (now : Nat) (rand : ℚ) (svc fn fp : String) (ts : Nat) (s : DashState),
      ((handleSnapshot now rand svc fn fp ts s).1).comparisonSessions =
        s.comparisonSessions) ∧
    (∀ (snap : SnapshotData) (s : DashState),
      ((handleSnapshotMetadata snap s).1).comparisonSessions = s.comparisonSessions) ∧
    (∀ (id : String) (i N : Nat) (d : String) (s : DashState),
      ((handleSnapshotChunk id i N d s).1).comparisonSessions = s.comparisonSessions) ∧
    (∀ (id : String) (s : DashState),
      ((handleSnapshotComplete id s).1).comparisonSessions = s.comparisonSessions) ∧
    (∀ (now ws : Nat) (s : DashState),
      ((handleClose now ws s).1).comparisonSessions = s.comparisonSessions) := by
  refine ⟨?_, ?_, fun _ _ _ _ _ => rfl, ?_, fun _ _ _ _ _ _ _ => rfl, fun _ _ => rfl,
    ?_, ?_, fun _ _ _ => rfl⟩
  · intro now serviceName containerId beforeId afterId timeframe outcome s
    by_cases hcond : (truthyData (mapGet s.snapshots beforeId) &&
        truthyData (mapGet s.snapshots afterId)) = true
    · cases outcome <;> simp [handleComparisonReady, hcond]
    · simp [handleComparisonReady, hcond]
  · intro ws service ts s
    by_cases h : (mapGet s.metrics service).isSome = true <;>
      simp [handleServiceRegistration, h]
  · intro now rand m s
    unfold handleMetrics
    cases mapGet s.services m.service <;>
      by_cases hl : m.leakDetected <;>
        simp [hl, handleLeakAlert_comparisonSessions]
  · intro id i N d s
    unfold handleSnapshotChunk
    cases mapGet s.snapshots id <;> rfl
  · intro id s
    unfold handleSnapshotComplete
    cases hsnap : mapGet s.snapshots id with
    | none => rfl
    | some snap => cases hc : snap.chunks <;> simp [hc]

/-- C9 fails on the code: a snapshot-notification alert takes id
`Date.now() + Math.random()` (here 1000) and a later
comparison-synthesized alert takes the counter id 1, so the recorded
identifiers 1000, 1 are not strictly increasing. -/
theorem alert_ids_not_monotonic_counterexample :
    ((handleComparisonReady 5 "svc" "c" "b" "a" 60 (.ok ⟨⟨0, 10, true⟩⟩)
        (handleSnapshot 1000 0 "svc" "f.heapsnapshot" "/tmp/f" 1
          { snapshots := [("b", doneBefore), ("a", doneAfter)] }).1).state.alerts.map
      Alert.id = [1000, 1]) ∧
    ¬ ((1000 : ℚ) < 1) := by
  constructor
  · simp [handleComparisonReady, handleSnapshot, doneBefore, doneAfter, truthyData,
      mapGet, mkComparisonAlert, trimAlerts]
  · norm_num

/-- C9 (amended): comparison-synthesized alerts take the current counter
as id and are the only operations that advance the counter, so their
identifiers are strictly increasing in recording order; snapshot and
metrics-leak alerts use wall-clock-plus-random identifiers and leave the
counter unchanged. -/
theorem alert_counter_discipline :
    (∀ (now : Nat) (serviceName containerId beforeId afterId : String)
        (timeframe : Nat) (outcome : Except String AnalysisResult) (s : DashState),
      (((handleComparisonReady now serviceName containerId beforeId afterId timeframe
            outcome s).state.alertCounter = s.alertCounter + 1 ∧
        (handleComparisonReady now serviceName containerId beforeId afterId timeframe
            outcome s).state.alerts.map Alert.id =
          s.alerts.map Alert.id ++ [(s.alertCounter : ℚ)]) ∨
       ((handleComparisonReady now serviceName containerId beforeId afterId timeframe
            outcome s).state.alertCounter = s.alertCounter ∧
        (handleComparisonReady now serviceName containerId beforeId afterId timeframe
            outcome s).state.alerts = s.alerts))) ∧
    (∀ (now : Nat) (rand : ℚ) (svc fn fp : String) (ts : Nat) (s : DashState),
      ((handleSnapshot now rand svc fn fp ts s).1).alertCounter = s.alertCounter) ∧
    (∀ (now : Nat) (rand : ℚ) (m : MetricData) (s : DashState),
      ((handleMetrics now rand m s).1).alertCounter = s.alertCounter) ∧
    (∀ (ws : Nat) (service : String) (ts : Nat) (s : DashState),
      ((handleServiceRegistration ws service ts s).1).alertCounter = s.alertCounter) ∧
    (∀ (snap : SnapshotData) (s : DashState),
      ((handleSnapshotMetadata snap s).1).alertCounter = s.alertCounter) ∧
    (∀ (id : String) (i N : Nat) (d : String) (s : DashState),
      ((handleSnapshotChunk id i N d s).1).alertCounter = s.alertCounter) ∧
    (∀ (id : String) (s : DashState),
      ((handleSnapshotComplete id s).1).alertCounter = s.alertCounter) ∧
    (∀ (now ws : Nat) (s : DashState),
      ((handleClose now ws s).1).alertCounter = s.alertCounter) := by
  refine ⟨?_, fun _ _ _ _ _ _ _ => rfl, ?_, ?_, fun _ _ => rfl, ?_, ?_,
    fun _ _ _ => rfl⟩
  · intro now serviceName containerId beforeId afterId timeframe outcome s
    by_cases hcond : (truthyData (mapGet s.snapshots beforeId) &&
        truthyData (mapGet s.snapshots afterId)) = true
    · cases outcome with
      | ok analysis =>
        by_cases hg : analysis.summary.suspiciousGrowth <;>
          simp [handleComparisonReady, hcond, hg, mkComparisonAlert]
      | error e => simp [handleComparisonReady, hcond]
    · simp [handleComparisonReady, hcond]
  · intro now rand m s
    unfold handleMetrics
    cases mapGet s.services m.service <;>
      by_cases hl : m.leakDetected <;>
        simp [hl, handleLeakAlert_alertCounter]
  · intro ws service ts s
    by_cases h : (mapGet s.metrics service).isSome = true <;>
      simp [handleServiceRegistration, h]
  · intro id i N d s
    unfold handleSnapshotChunk
    cases mapGet s.snapshots id <;> rfl
  · intro id s
    unfold handleSnapshotComplete
    cases hsnap : mapGet s.snapshots id with
    | none => rfl
    | some snap => cases hc : snap.chunks <;> simp [hc]

/-- Whether an event is a `snapshotCompleted` broadcast. -/
def Event.isSnapCompleted : Event → Bool
  | .snapshotCompleted _ _ _ _ _ _ => true
  | _ => false

theorem setChunk_overwrite (l : List (Option String)) (i : Nat) (d d' : String) :
    setChunk (setChunk l i d) i d' = setChunk l i d' := by
  induction i generalizing l with
  | zero => cases l <;> simp [setChunk]
  | succ m ih => cases l <;> simp [setChunk, ih]

theorem applyChunk_some (snap : SnapshotData) (t : List (Option String)) (r : Nat)
    (i N : Nat) (d : String) (hc : snap.chunks = some t)
    (hr : snap.receivedChunks = some r) :
    applyChunk snap i N d =
      { snap with chunks := some (setChunk t i d), receivedChunks := some (r + 1) } := by
  unfold applyChunk
  rw [hc]
  simp [hc, hr]

theorem handleSnapshotChunk_step (s : DashState) (id : String) (snap : SnapshotData)
    (i N : Nat) (d : String) (hs : mapGet s.snapshots id = some snap) :
    (handleSnapshotChunk id i N d s).1 =
      { s with snapshots := mapSet s.snapshots id (applyChunk snap i N d) } := by
  unfold handleSnapshotChunk
  rw [hs]

/-- Metadata message with a declared total of one chunk. -/
def oneChunkMeta : SnapshotData :=
  { id := "sn", serviceName := "svc", containerId := "c", phase := .before,
    timestamp := "t", size := 3, filename := "s.heapsnapshot", totalChunks := some 1 }

def oneChunkState : DashState := (handleSnapshotMetadata oneChunkMeta ({} : DashState)).1

def storedOneChunk : SnapshotData :=
  { oneChunkMeta with chunks := some [], receivedChunks := some 0 }

/-- C1 fails on the code: after announcing a snapshot with total-chunks 1
and receiving chunk index 0 twice, the later data wins but
received-chunks is re-incremented to 2, exceeding total-chunks 1. -/
theorem snapshotChunk_duplicate_reincrement_counterexample :
    ((mapGet ((handleSnapshotChunk "sn" 0 1 "z"
          ((handleSnapshotChunk "sn" 0 1 "a" oneChunkState).1)).1.snapshots) "sn").map
        (fun sn => (sn.receivedChunks, sn.totalChunks, sn.chunks)) =
      some (some 2, some 1, some [some "z"])) ∧
    ¬ (2 ≤ 1) := by decide

/-- C1 (amended): on a duplicate chunk index the later write wins in the
chunk table, but received-chunks is incremented on every chunk message —
duplicates included — so received-chunks can exceed total-chunks. -/
theorem snapshotChunk_last_write_wins_but_reincrements :
    (∀ (l : List (Option String)) (i : Nat) (d d' : String),
      setChunk (setChunk l i d) i d' = setChunk l i d') ∧
    (∀ (s : DashState) (id : String) (snap : SnapshotData)
        (t : List (Option String)) (r i N : Nat) (d : String),
      mapGet s.snapshots id = some snap → snap.chunks = some t →
      snap.receivedChunks = some r →
      mapGet ((handleSnapshotChunk id i N d s).1).snapshots id =
        some { snap with chunks := some (setChunk t i d),
                         receivedChunks := some (r + 1) }) := by
  refine ⟨setChunk_overwrite, ?_⟩
  intro s id snap t r i N d hs hc hr
  rw [handleSnapshotChunk_step s id snap i N d hs, applyChunk_some snap t r i N d hc hr]
  simp [mapGet_mapSet_self]

theorem snapshotChunk_last_write_wins_but_reincrements_witness :
    (mapGet oneChunkState.snapshots "sn" = some storedOneChunk ∧
     storedOneChunk.chunks = some [] ∧ storedOneChunk.receivedChunks = some 0) ∧
    mapGet ((handleSnapshotChunk "sn" 0 1 "a" oneChunkState).1).snapshots "sn" =
      some { storedOneChunk with chunks := some (setChunk [] 0 "a"),
                                 receivedChunks := some (0 + 1) } :=
  ⟨⟨by decide, by decide, by decide⟩,
   snapshotChunk_last_write_wins_but_reincrements.2 oneChunkState "sn" storedOneChunk
     [] 0 0 1 "a" (by decide) (by decide) (by decide)⟩

/-- Metadata message with a declared total of two chunks. -/
def twoChunkMeta : SnapshotData :=
  { id := "s2", serviceName := "svc", containerId := "c", phase := .before,
    timestamp := "t", size := 9, filename := "x.heapsnapshot", totalChunks := some 2 }

def earlyState : DashState :=
  (handleSnapshotChunk "s2" 0 2 "ab" (handleSnapshotMetadata twoChunkMeta ({} : DashState)).1).1

def earlySnap : SnapshotData :=
  { twoChunkMeta with chunks := some [some "ab"], receivedChunks := some 1 }

/-- C2 fails on the code: a snapshot-complete that arrives with only 1 of
2 chunks received persists the partial data and emits snapshotCompleted
immediately instead of remaining in Receiving; no reconciliation on the
last chunk exists. -/
theorem snapshotComplete_early_counterexample :
    ((mapGet earlyState.snapshots "s2").map
        (fun sn => (sn.receivedChunks, sn.totalChunks)) = some (some 1, some 2)) ∧
    (handleSnapshotComplete "s2" earlyState).2 =
      ([Event.snapshotCompleted "s2" "svc" .before "t" 9
          "./dashboard-snapshots/x.heapsnapshot"],
       [("./dashboard-snapshots/x.heapsnapshot", "ab")]) := by decide

/-- C2 (amended): a snapshot-complete message finalizes any known
snapshot that has a chunk table — regardless of whether received-chunks
equals total-chunks — persisting the index-order join (holes as empty
strings) and emitting snapshotCompleted; and no chunk message ever emits
a snapshotCompleted event, so completion is never reconciled on the last
chunk. -/
theorem snapshotComplete_unconditional (s : DashState) (id : String)
    (snap : SnapshotData) (table : List (Option String))
    (hs : mapGet s.snapshots id = some snap) (hc : snap.chunks = some table) :
    (handleSnapshotComplete id s =
      ({ s with snapshots := mapSet s.snapshots id { snap with data := some (joinChunks table) } },
       [Event.snapshotCompleted snap.id snap.serviceName snap.phase snap.timestamp
          snap.size (snapshotsDir ++ "/" ++ snap.filename)],
       [(snapshotsDir ++ "/" ++ snap.filename, joinChunks table)])) ∧
    (∀ (i N : Nat) (d : String) (s' : DashState) (snapId : String),
      ((handleSnapshotChunk snapId i N d s').2.all
        (fun e => !e.isSnapCompleted)) = true) := by
  constructor
  · unfold handleSnapshotComplete
    rw [hs]
    simp [hc]
  · intro i N d s' snapId
    unfold handleSnapshotChunk
    cases mapGet s'.snapshots snapId <;> simp [Event.isSnapCompleted]

theorem snapshotComplete_unconditional_witness :
    (mapGet earlyState.snapshots "s2" = some earlySnap ∧
     earlySnap.chunks = some [some "ab"]) ∧
    handleSnapshotComplete "s2" earlyState =
      ({ earlyState with snapshots := mapSet earlyState.snapshots "s2" { earlySnap with data := some (joinChunks [some "ab"]) } },
       [Event.snapshotCompleted earlySnap.id earlySnap.serviceName earlySnap.phase
          earlySnap.timestamp earlySnap.size
          (snapshotsDir ++ "/" ++ earlySnap.filename)],
       [(snapshotsDir ++ "/" ++ earlySnap.filename, joinChunks [some "ab"])]) :=
  ⟨⟨by decide, by decide⟩,
   (snapshotComplete_unconditional earlyState "s2" earlySnap [some "ab"]
     (by decide) (by decide)).1⟩

/-- Snapshot that was announced and finalized with zero chunks: its
assembled payload is the empty string. -/
def emptyPayloadMeta : SnapshotData :=
  { id := "b", serviceName := "svc", containerId := "c", phase := .before,
    timestamp := "t", size := 0, filename := "e.heapsnapshot" }

def emptyDoneState : DashState :=
  (handleSnapshotComplete "b" (handleSnapshotMetadata emptyPayloadMeta ({} : DashState)).1).1

/-- C5 fails on the code as stated: the before snapshot here is complete
(its snapshot-complete was processed and its data is assigned, the empty
string), yet the comparisonPending flags report it missing because the
code tests JS truthiness of the data string, not completeness. -/
theorem comparisonPending_flag_counterexample :
    ((mapGet emptyDoneState.snapshots "b").map SnapshotData.data = some (some "")) ∧
    mapGet emptyDoneState.snapshots "a" = none ∧
    (handleComparisonReady 7 "svc" "c" "b" "a" 60 (.ok ⟨⟨0, 10, true⟩⟩)
        emptyDoneState).events =
      [Event.comparisonPending "comparison_svc_7" "svc" true true] := by decide

/-- C5 (amended): whenever either referenced snapshot lacks truthy data
(absent, never finalized, or finalized with an empty payload), exactly
one comparisonPending event is published whose flags are the negated
data-truthiness of each side, the created session stays waiting, and the
analyzer is not invoked. -/
theorem comparisonPending_exactly_once
    (now : Nat) (serviceName containerId beforeId afterId : String) (timeframe : Nat)
    (outcome : Except String AnalysisResult) (s : DashState)
    (h : truthyData (mapGet s.snapshots beforeId) = false ∨
         truthyData (mapGet s.snapshots afterId) = false) :
    (handleComparisonReady now serviceName containerId beforeId afterId timeframe
        outcome s).events =
      [Event.comparisonPending ("comparison_" ++ serviceName ++ "_" ++ toString now)
        serviceName (!truthyData (mapGet s.snapshots beforeId))
        (!truthyData (mapGet s.snapshots afterId))] ∧
    (handleComparisonReady now serviceName containerId beforeId afterId timeframe
        outcome s).analyzed = false ∧
    mapGet (handleComparisonReady now serviceName containerId beforeId afterId timeframe
        outcome s).state.comparisonSessions
        ("comparison_" ++ serviceName ++ "_" ++ toString now) = some
      { id := "comparison_" ++ serviceName ++ "_" ++ toString now,
        serviceName := serviceName, containerId := containerId,
        beforeSnapshotId := beforeId, afterSnapshotId := afterId,
        timeframe := timeframe, status := .waiting, result := none,
        createdAt := now } := by
  rcases h with h | h <;>
    simp [handleComparisonReady, h, mapGet_mapSet_self]

/-- State with a complete before snapshot and no after snapshot. -/
def pendingState : DashState := { snapshots := [("b", doneBefore)] }

theorem comparisonPending_exactly_once_witness :
    (truthyData (mapGet pendingState.snapshots "b") = false ∨
     truthyData (mapGet pendingState.snapshots "a") = false) ∧
    ((handleComparisonReady 7 "svc" "c" "b" "a" 60 (.ok ⟨⟨0, 10, true⟩⟩)
        pendingState).events =
      [Event.comparisonPending ("comparison_" ++ "svc" ++ "_" ++ toString 7) "svc"
        (!truthyData (mapGet pendingState.snapshots "b"))
        (!truthyData (mapGet pendingState.snapshots "a"))] ∧
    (handleComparisonReady 7 "svc" "c" "b" "a" 60 (.ok ⟨⟨0, 10, true⟩⟩)
        pendingState).analyzed = false ∧
    mapGet (handleComparisonReady 7 "svc" "c" "b" "a" 60 (.ok ⟨⟨0, 10, true⟩⟩)
        pendingState).state.comparisonSessions
        ("comparison_" ++ "svc" ++ "_" ++ toString 7) = some
      { id := "comparison_" ++ "svc" ++ "_" ++ toString 7,
        serviceName := "svc", containerId := "c",
        beforeSnapshotId := "b", afterSnapshotId := "a",
        timeframe := 60, status := .waiting, result := none, createdAt := 7 }) :=
  ⟨Or.inr (by decide),
   comparisonPending_exactly_once 7 "svc" "c" "b" "a" 60 (.ok ⟨⟨0, 10, true⟩⟩)
     pendingState (Or.inr (by decide))⟩

/-- Folding the chunk writes in index order builds the full table. -/
theorem foldl_setChunk_range (payload : Nat → String) (N : Nat) :
    ((List.range N).map (fun i => (i, payload i))).foldl
        (fun t p => setChunk t p.1 p.2) [] =
      (List.range N).map (fun i => some (payload i)) := by
  induction N with
  | zero => simp
  | succ k ih =>
    rw [List.range_succ, List.map_append, List.foldl_append, ih]
    simp only [List.map_cons, List.map_nil, List.foldl_cons, List.foldl_nil,
      List.map_append]
    have h := setChunk_at_length ((List.range k).map (fun i => some (payload i)))
      (payload k)
    simpa using h

/-- Folding the chunk writes over any permutation of the index-order
messages builds the same full table. -/
theorem foldl_setChunk_perm (N : Nat) (payload : Nat → String)
    (msgs : List (Nat × String))
    (hperm : msgs.Perm ((List.range N).map (fun i => (i, payload i)))) :
    msgs.foldl (fun t p => setChunk t p.1 p.2) [] =
      (List.range N).map (fun i => some (payload i)) := by
  have comm : ∀ x ∈ msgs, ∀ y ∈ msgs, ∀ z : List (Option String),
      setChunk (setChunk z x.1 x.2) y.1 y.2 = setChunk (setChunk z y.1 y.2) x.1 x.2 := by
    intro x hx y hy z
    rw [hperm.mem_iff] at hx hy
    obtain ⟨i, hi, rfl⟩ := List.mem_map.mp hx
    obtain ⟨j, hj, rfl⟩ := List.mem_map.mp hy
    by_cases hij : i = j
    · subst hij; rfl
    · exact setChunk_comm z i j (payload i) (payload j) hij
  rw [hperm.foldl_eq' comm]
  exact foldl_setChunk_range payload N

theorem joinChunks_map_some (f : Nat → String) (n : Nat) :
    joinChunks ((List.range n).map (fun i => some (f i))) =
      String.join ((List.range n).map f) := by
  unfold joinChunks
  rw [List.map_map]
  rfl

/-- Tracking one snapshot entry through a run of chunk messages. -/
theorem foldl_chunks_state (id : String) (N : Nat) (base : SnapshotData)
    (msgs : List (Nat × String)) :
    ∀ (s : DashState) (t : List (Option String)) (r : Nat),
      mapGet s.snapshots id = some { base with chunks := some t, receivedChunks := some r } →
      mapGet ((msgs.foldl (fun st p => (handleSnapshotChunk id p.1 N p.2 st).1) s)).snapshots id =
        some { base with chunks := some (msgs.foldl (fun t p => setChunk t p.1 p.2) t),
                         receivedChunks := some (r + msgs.length) } := by
  induction msgs with
  | nil => intro s t r h; simpa using h
  | cons m rest ih =>
    intro s t r h
    have hnew : mapGet ((handleSnapshotChunk id m.1 N m.2 s).1).snapshots id =
        some { base with chunks := some (setChunk t m.1 m.2),
                         receivedChunks := some (r + 1) } := by
      rw [handleSnapshotChunk_step s id _ m.1 N m.2 h,
        applyChunk_some _ t r m.1 N m.2 rfl rfl]
      simp [mapGet_mapSet_self]
    have hrec := ih _ _ _ hnew
    rw [List.foldl_cons, List.foldl_cons]
    rw [hrec]
    have harith : r + 1 + rest.length = r + (rest.length + 1) := by omega
    simp [harith]

/-- C3: announcing a snapshot, receiving its N distinct-index chunks in
any permutation and then completing it persists, at
`./dashboard-snapshots/<filename>`, exactly the concatenation of the
chunk payloads in index order — independent of arrival order. -/
theorem snapshot_reassembly_order_independent
    (s : DashState) (meta : SnapshotData) (N : Nat) (payload : Nat → String)
    (msgs : List (Nat × String))
    (hperm : msgs.Perm ((List.range N).map (fun i => (i, payload i)))) :
    (handleSnapshotComplete meta.id
        (msgs.foldl (fun st p => (handleSnapshotChunk meta.id p.1 N p.2 st).1)
          (handleSnapshotMetadata meta s).1)).2.2 =
      [(snapshotsDir ++ "/" ++ meta.filename,
        String.join ((List.range N).map payload))] := by
  have hmeta : mapGet ((handleSnapshotMetadata meta s).1).snapshots meta.id =
      some { meta with chunks := some [], receivedChunks := some 0 } := by
    simp [handleSnapshotMetadata, mapGet_mapSet_self]
  have hfold := foldl_chunks_state meta.id N
    { meta with chunks := some [], receivedChunks := some 0 } msgs
    (handleSnapshotMetadata meta s).1 [] 0 hmeta
  rw [foldl_setChunk_perm N payload msgs hperm] at hfold
  unfold handleSnapshotComplete
  rw [hfold]
  simp [joinChunks_map_some]

def payload3 : Nat → String := fun i =>
  if i = 0 then "abc" else if i = 1 then "def" else if i = 2 then "ghi" else ""

def msgs3 : List (Nat × String) := [(0, "abc"), (2, "ghi"), (1, "def")]

def meta3 : SnapshotData :=
  { id := "w", serviceName := "svc", containerId := "c", phase := .before,
    timestamp := "t", size := 9, filename := "b.heapsnapshot", totalChunks := some 3 }

theorem snapshot_reassembly_order_independent_witness :
    (msgs3.Perm ((List.range 3).map (fun i => (i, payload3 i)))) ∧
    (handleSnapshotComplete meta3.id
        (msgs3.foldl (fun st p => (handleSnapshotChunk meta3.id p.1 3 p.2 st).1)
          (handleSnapshotMetadata meta3 ({} : DashState)).1)).2.2 =
      [(snapshotsDir ++ "/" ++ meta3.filename,
        String.join ((List.range 3).map payload3))] :=
  ⟨by decide,
   snapshot_reassembly_order_independent ({} : DashState) meta3 3 payload3 msgs3
     (by decide)⟩

end MemWatch
